import Mathlib

/-!
Verification of the error-classification / alert-dispatch subsystem of the
agentic-workflow repository.

The `AlertManager` component is embedded from the TypeScript source
(`src/unnamed/part_004`): JavaScript `Map` objects become association lists,
`Date` timestamps become natural-number milliseconds, and the fallible
channel adapters (network calls through axios) become an abstract function
returning `Except String Unit`.  The `ErrorHandler` facade, `ErrorNormalizer`,
`FailureRegistry` and `CircuitBreaker` live in `src/lib/error-handler`, a
module not present in the source tree (only its callers are); those are
modelled from the specification, as marked on each definition.
-/

namespace AgenticWorkflow

/-- Association-list lookup, modelling JavaScript `Map.prototype.get`. -/
def mapGet {κ ν : Type} [DecidableEq κ] : List (κ × ν) → κ → Option ν
  | [], _ => none
  | (k, v) :: rest, k' => if k = k' then some v else mapGet rest k'

/-- Association-list insert-or-overwrite, modelling `Map.prototype.set`
(insertion order is preserved, an existing key is overwritten in place). -/
def mapSet {κ ν : Type} [DecidableEq κ] : List (κ × ν) → κ → ν → List (κ × ν)
  | [], k, v => [(k, v)]
  | (k', v') :: rest, k, v =>
    if k' = k then (k, v) :: rest else (k', v') :: mapSet rest k v

/-- `AlertSeverity` enum from the source (`info | warning | high | critical`). -/
inductive AlertSeverity : Type
  | info
  | warning
  | high
  | critical
deriving DecidableEq, Repr

/-- The string value of each `AlertSeverity` enum member. -/
def AlertSeverity.str : AlertSeverity → String
  | .info => "info"
  | .warning => "warning"
  | .high => "high"
  | .critical => "critical"

/-- `AlertChannel` enum from the source
(`slack | email | pagerduty | webhook | console`). -/
inductive AlertChannel : Type
  | slack
  | email
  | pagerduty
  | webhook
  | console
deriving DecidableEq, Repr

/-- The `Alert` interface: severity, title, message, optional context,
optional explicit channel list, optional tags, optional timestamp
(milliseconds).  `context` is modelled as a key/value list. -/
structure Alert : Type where
  severity : AlertSeverity
  title : String
  message : String
  context : List (String × String)
  channels : Option (List AlertChannel)
  tags : List String
  timestamp : Option Nat
deriving DecidableEq, Repr

/-- Channel-specific configuration payloads built by `initializeChannels`. -/
inductive ChannelSettings : Type
  | slackCfg (webhookUrl channel username : String)
  | emailCfg (host : String) (port : Option Nat) (secure : Bool)
      (sender : Option String) (recipients : List String)
  | pagerdutyCfg (integrationKey : String)
  | webhookCfg (url : String)
  | emptyCfg
deriving DecidableEq, Repr

/-- The `ChannelConfig` interface: an `enabled` flag plus the settings. -/
structure ChannelConfig : Type where
  enabled : Bool
  config : ChannelSettings
deriving DecidableEq, Repr

/-- The environment variables consulted by `initializeChannels`. -/
structure Env : Type where
  slackWebhookUrl : Option String
  slackChannel : Option String
  slackUsername : Option String
  smtpHost : Option String
  smtpPort : Option String
  smtpSecure : Option String
  emailFrom : Option String
  alertEmailTo : Option String
  pagerdutyIntegrationKey : Option String
  nodeEnv : Option String
deriving DecidableEq, Repr

/-- Mutable state of an `AlertManager` instance: the channel map, the alert
history (newest first, as `unshift` prepends), and the rate-limiter map from
`title:severity` keys to the timestamp of the last successful send. -/
structure AMState : Type where
  channels : List (AlertChannel × ChannelConfig)
  alertHistory : List Alert
  rateLimiter : List (String × Nat)
deriving DecidableEq, Repr

/-- `maxHistorySize = 100` from the source. -/
def maxHistorySize : Nat := 100

/-- `rateLimitWindow = 300000` (5 minutes in ms) from the source. -/
def rateLimitWindow : Nat := 300000

/-- `AlertManager.initializeChannels`: slack is registered when
`SLACK_WEBHOOK_URL` is set, email when `SMTP_HOST` is set, pagerduty when
`PAGERDUTY_INTEGRATION_KEY` is set; the console entry is always registered
but `enabled` only when `NODE_ENV === 'development'`. -/
def initializeChannels (env : Env) : List (AlertChannel × ChannelConfig) :=
  let m : List (AlertChannel × ChannelConfig) := []
  let m := match env.slackWebhookUrl with
    | some url =>
      mapSet m AlertChannel.slack
        ⟨true, ChannelSettings.slackCfg url
          (env.slackChannel.getD "#alerts") (env.slackUsername.getD "Alert Bot")⟩
    | none => m
  let m := match env.smtpHost with
    | some h =>
      mapSet m AlertChannel.email
        ⟨true, ChannelSettings.emailCfg h (env.smtpPort.getD "587").toNat?
          (env.smtpSecure == some "true") env.emailFrom
          (match env.alertEmailTo with
           | some s => s.splitOn ","
           | none => [])⟩
    | none => m
  let m := match env.pagerdutyIntegrationKey with
    | some k => mapSet m AlertChannel.pagerduty ⟨true, ChannelSettings.pagerdutyCfg k⟩
    | none => m
  mapSet m AlertChannel.console ⟨env.nodeEnv == some "development", ChannelSettings.emptyCfg⟩

/-- A fresh `AlertManager`: the constructor calls `initializeChannels`,
history and rate limiter start empty. -/
def initAlertManager (env : Env) : AMState :=
  ⟨initializeChannels env, [], []⟩

/-- The rate-limiter key `` `${alert.title}:${alert.severity}` ``. -/
def rateLimitKey (a : Alert) : String :=
  a.title ++ ":" ++ a.severity.str

/-- `alert.timestamp = alert.timestamp || new Date()` at the top of `send`. -/
def stampTimestamp (a : Alert) (now : Nat) : Alert :=
  { a with timestamp := some (a.timestamp.getD now) }

/-- `AlertManager.isRateLimited`: on a first-ever key, record `now` and
return `false`; within the window return `true` without touching the map;
after the window, record `now` and return `false`.  Returns the decision
together with the updated state. -/
def isRateLimited (st : AMState) (a : Alert) (now : Nat) : Bool × AMState :=
  let key := rateLimitKey a
  match mapGet st.rateLimiter key with
  | none => (false, { st with rateLimiter := mapSet st.rateLimiter key now })
  | some lastSent =>
    if now - lastSent < rateLimitWindow then
      (true, st)
    else
      (false, { st with rateLimiter := mapSet st.rateLimiter key now })

/-- `AlertManager.addToHistory`: `unshift` the alert, then `pop` the last
(oldest) entry when the length exceeds `maxHistorySize`. -/
def addToHistory (st : AMState) (a : Alert) : AMState :=
  let h := a :: st.alertHistory
  if h.length > maxHistorySize then
    { st with alertHistory := h.dropLast }
  else
    { st with alertHistory := h }

/-- `AlertManager.getDefaultChannels`: the severity → channel-set table. -/
def getDefaultChannels : AlertSeverity → List AlertChannel
  | .critical => [AlertChannel.slack, AlertChannel.pagerduty, AlertChannel.email]
  | .high => [AlertChannel.slack, AlertChannel.email]
  | .warning => [AlertChannel.slack]
  | .info => [AlertChannel.console]

/-- `alert.channels || this.getDefaultChannels(alert.severity)` in `send`. -/
def resolveChannels (a : Alert) : List AlertChannel :=
  match a.channels with
  | some cs => cs
  | none => getDefaultChannels a.severity

/-- External adapter behaviour: for each channel, the outcome of its
network call (axios for slack / pagerduty / webhook).  `Except.error`
models a rejected promise. -/
def Adapters : Type := AlertChannel → Except String Unit

/-- The body of the `switch` inside `sendToChannel`: slack, pagerduty and
webhook perform a fallible network call; `sendToEmail` only logs in the
source (simplified implementation) and `sendToConsole` is a synchronous
console print, so both always succeed. -/
def channelAction (adapters : Adapters) : AlertChannel → Except String Unit
  | .slack => adapters AlertChannel.slack
  | .email => Except.ok ()
  | .pagerduty => adapters AlertChannel.pagerduty
  | .console => Except.ok ()
  | .webhook => adapters AlertChannel.webhook

/-- Observable outcome of one channel dispatch. -/
inductive ChannelOutcome : Type
  | skipped
  | delivered
  | caught (msg : String)
deriving DecidableEq, Repr

/-- `AlertManager.sendToChannel`: skip when the channel is absent from the
map or not enabled; otherwise run the channel action inside `try`/`catch`,
so an adapter failure is caught and logged, never propagated. -/
def sendToChannel (st : AMState) (adapters : Adapters) (c : AlertChannel) :
    ChannelOutcome :=
  match mapGet st.channels c with
  | none => ChannelOutcome.skipped
  | some cfg =>
    if cfg.enabled then
      match channelAction adapters c with
      | Except.ok _ => ChannelOutcome.delivered
      | Except.error e => ChannelOutcome.caught e
    else
      ChannelOutcome.skipped

/-- What one `send` call reported: whether it was suppressed by the rate
limiter, the resolved channel list, and the per-channel outcomes. -/
structure SendResult : Type where
  suppressed : Bool
  channels : List AlertChannel
  outcomes : List ChannelOutcome
deriving DecidableEq, Repr

/-- `AlertManager.send`: stamp the timestamp, consult the rate limiter (and
return early, log-only, when limited), record in history, resolve the
channel set, and dispatch to every channel with `Promise.allSettled`.  The
`Except` result type records that the promise returned by `send` could in
principle reject; the theorems show it never does. -/
def send (st : AMState) (adapters : Adapters) (a : Alert) (now : Nat) :
    Except String (AMState × SendResult) :=
  let a' := stampTimestamp a now
  match isRateLimited st a' now with
  | (true, st₁) => Except.ok (st₁, ⟨true, [], []⟩)
  | (false, st₁) =>
    let st₂ := addToHistory st₁ a'
    let cs := resolveChannels a'
    Except.ok (st₂, ⟨false, cs, cs.map (sendToChannel st₂ adapters)⟩)

/-- Run `send` and unwrap the (always-`ok`) result. -/
def sendRun (st : AMState) (adapters : Adapters) (a : Alert) (now : Nat) :
    AMState × SendResult :=
  match send st adapters a now with
  | Except.ok r => r
  | Except.error _ => (st, ⟨true, [], []⟩)

/-- `AlertManager.getHistory`: `this.alertHistory.slice(0, limit)`. -/
def getHistory (st : AMState) (limit : Nat) : List Alert :=
  st.alertHistory.take limit

/-- `getHistory` with its default argument `limit = 10`. -/
def getHistoryDefault (st : AMState) : List Alert :=
  getHistory st 10

/-- A sequence of `send` calls, each with its alert and its clock reading,
threaded through the manager state. -/
def runSends (adapters : Adapters) (st : AMState) : List (Alert × Nat) → AMState
  | [] => st
  | (a, t) :: rest => runSends adapters (sendRun st adapters a t).1 rest

/-- Modelled from the spec: `ErrorSeverity` of the `error-handler` module,
which is imported by the application entry point but absent from the source
tree (`low | medium | high | critical`, spec section 3). -/
inductive ErrorSeverity : Type
  | low
  | medium
  | high
  | critical
deriving DecidableEq, Repr

/-- Modelled from the spec: `ErrorCategory` of the missing `error-handler`
module (spec section 3). -/
inductive ErrorCategory : Type
  | validation
  | authentication
  | authorization
  | network
  | database
  | businessLogic
  | system
  | externalService
  | configuration
deriving DecidableEq, Repr

/-- The string value of each `ErrorCategory` member. -/
def ErrorCategory.str : ErrorCategory → String
  | .validation => "validation"
  | .authentication => "authentication"
  | .authorization => "authorization"
  | .network => "network"
  | .database => "database"
  | .businessLogic => "business_logic"
  | .system => "system"
  | .externalService => "external_service"
  | .configuration => "configuration"

/-- Modelled from the spec: the declared recovery strategies
(`retry | fallback | circuit_break | compensate | escalate | ignore`). -/
inductive RecoveryStrategy : Type
  | retry
  | fallback
  | circuitBreak
  | compensate
  | escalate
  | ignore
deriving DecidableEq, Repr

/-- Modelled from the spec: `CanonicalError` of the missing `error-handler`
module — identity, creation timestamp, severity, category, stable code,
context map, recoverable flag, optional strategy, optional remediation,
optional cause (kept as its message), ambient correlation fields, and the
failure message (spec section 3). -/
structure CanonicalError : Type where
  id : Nat
  timestamp : Nat
  severity : ErrorSeverity
  category : ErrorCategory
  code : String
  message : String
  context : List (String × String)
  recoverable : Bool
  recovery : Option RecoveryStrategy
  remediation : Option String
  cause : Option String
  correlationId : Option String
  userId : Option String
  sessionId : Option String
  traceId : Option String
deriving DecidableEq, Repr

/-- Modelled from the spec: the ambient context provider that supplies
correlation fields at `CanonicalError` creation time (spec section 6). -/
structure AmbientContext : Type where
  correlationId : Option String
  userId : Option String
  sessionId : Option String
  traceId : Option String
deriving DecidableEq, Repr

/-- Modelled from the spec: a failure value given to the normalizer — either
already a `CanonicalError` or an arbitrary raw failure carrying a message
and an optional stack. -/
inductive FailureValue : Type
  | canonical (e : CanonicalError)
  | raw (message : String) (stack : Option String)
deriving DecidableEq, Repr

/-- Modelled from the spec: `ErrorNormalizer.normalize` of the missing
`error-handler` module — an already-canonical input is returned unchanged
(no new id allocated); anything else is synthesized with severity `medium`,
category `system`, code `UNKNOWN_ERROR`, `recoverable = false`, the original
message and stack embedded as context, and the ambient correlation fields
captured at creation time (spec section 4.1). -/
def normalize (freshId : Nat) (now : Nat) (ctx : AmbientContext) :
    FailureValue → CanonicalError
  | .canonical e => e
  | .raw msg stack =>
    { id := freshId
      timestamp := now
      severity := ErrorSeverity.medium
      category := ErrorCategory.system
      code := "UNKNOWN_ERROR"
      message := msg
      context := ("message", msg) ::
        (match stack with
         | some s => [("stack", s)]
         | none => [])
      recoverable := false
      recovery := none
      remediation := none
      cause := none
      correlationId := ctx.correlationId
      userId := ctx.userId
      sessionId := ctx.sessionId
      traceId := ctx.traceId }

/-- The `category:code` key used by the registries. -/
def canonicalKey (e : CanonicalError) : String :=
  e.category.str ++ ":" ++ e.code

/-- Modelled from the spec: `FailureRegistry.recordOccurrence` — a pure
counter increment keyed by `category:code`, returning the new total
(spec section 4.2). -/
def recordOccurrence (reg : List (String × Nat)) (key : String) :
    Nat × List (String × Nat) :=
  let n := (mapGet reg key).getD 0 + 1
  (n, mapSet reg key n)

/-- Modelled from the spec: circuit-breaker states
(`closed | open | half-open`); `opened` models the spec's `open` state. -/
inductive CBState : Type
  | closed
  | opened
  | halfOpen
deriving DecidableEq, Repr

/-- Modelled from the spec: a `CircuitBreaker` — state, failure counter,
last-failure timestamp, configurable failure threshold and open-duration
timeout (spec section 3). -/
structure CircuitBreaker : Type where
  state : CBState
  failureCount : Nat
  lastFailure : Option Nat
  failureThreshold : Nat
  timeoutMs : Nat
deriving DecidableEq, Repr

/-- Modelled from the spec: a lazily created breaker starts `closed` with a
zero counter; the default failure threshold is 5 and the default
open-duration timeout is 60 seconds. -/
def defaultBreaker : CircuitBreaker :=
  ⟨CBState.closed, 0, none, 5, 60000⟩

/-- Modelled from the spec: `recordFailure` on one breaker — in `closed`,
increment the counter and transition to `open` once the counter reaches the
threshold; in `open`, a no-op on state; the spec leaves failure-while-half-open
unspecified (section 9), modelled here as recording the failure without a
state change. -/
def CircuitBreaker.recordFailure (cb : CircuitBreaker) (now : Nat) :
    CircuitBreaker :=
  match cb.state with
  | CBState.closed =>
    let n := cb.failureCount + 1
    if cb.failureThreshold ≤ n then
      { cb with state := CBState.opened, failureCount := n, lastFailure := some now }
    else
      { cb with failureCount := n, lastFailure := some now }
  | CBState.opened => { cb with lastFailure := some now }
  | CBState.halfOpen =>
    { cb with failureCount := cb.failureCount + 1, lastFailure := some now }

/-- `k` consecutive `recordFailure` calls on one breaker. -/
def iterateFailures (cb : CircuitBreaker) (now : Nat) : Nat → CircuitBreaker
  | 0 => cb
  | k + 1 => (iterateFailures cb now k).recordFailure now

/-- Modelled from the spec: `recordSuccess` — on a `half-open` breaker,
transition to `closed` and reset the failure counter; otherwise no state
effect (spec section 4.3). -/
def CircuitBreaker.recordSuccess (cb : CircuitBreaker) : CircuitBreaker :=
  match cb.state with
  | CBState.halfOpen => { cb with state := CBState.closed, failureCount := 0 }
  | _ => cb

/-- Modelled from the spec: `CircuitBreakerRegistry.recordFailure(key)` —
breakers are created lazily per key with the default configuration. -/
def cbRegistryRecordFailure (m : List (String × CircuitBreaker)) (key : String)
    (now : Nat) : List (String × CircuitBreaker) :=
  mapSet m key (((mapGet m key).getD defaultBreaker).recordFailure now)

/-- Modelled from the spec: the state of the `ErrorHandler` facade — the id
allocator for the normalizer, the failure registry, the circuit-breaker
registry, and the alert manager. -/
structure HandlerState : Type where
  nextId : Nat
  registry : List (String × Nat)
  breakers : List (String × CircuitBreaker)
  am : AMState
deriving DecidableEq, Repr

/-- Modelled from the spec: the alert the handler sends for a critical
error (spec section 4.6: "if severity == critical, always alert"). -/
def criticalAlert (e : CanonicalError) : Alert :=
  ⟨AlertSeverity.critical, e.code, e.message, e.context, none, [], none⟩

/-- Modelled from the spec: the `warning` alert summarizing the rate once
the failure count for a key exceeds 10 (spec section 4.6). -/
def rateAlert (e : CanonicalError) (count : Nat) : Alert :=
  ⟨AlertSeverity.warning, "High error rate: " ++ canonicalKey e,
    "Error " ++ canonicalKey e ++ " occurred " ++ toString count ++ " times",
    [], none, [], none⟩

/-- Modelled from the spec: the unconditional `high`-severity alert sent by
the `escalate` recovery strategy (spec section 4.5). -/
def escalationAlert (e : CanonicalError) : Alert :=
  ⟨AlertSeverity.high, "Escalation: " ++ e.code, e.message, e.context, none, [], none⟩

/-- Modelled from the spec: `RecoveryOrchestrator.attempt` — dispatch on the
declared strategy: `circuit_break` records a breaker failure, `escalate`
sends a high-severity alert, `retry` / `fallback` / `compensate` invoke
external hooks (extension points, no core state change), `ignore` is a
no-op besides an audit log (spec section 4.5). -/
def recoveryAttempt (st : HandlerState) (adapters : Adapters)
    (e : CanonicalError) (now : Nat) : HandlerState :=
  match e.recovery with
  | some RecoveryStrategy.circuitBreak =>
    { st with breakers := cbRegistryRecordFailure st.breakers (canonicalKey e) now }
  | some RecoveryStrategy.escalate =>
    { st with am := (sendRun st.am adapters (escalationAlert e) now).1 }
  | some RecoveryStrategy.retry => st
  | some RecoveryStrategy.fallback => st
  | some RecoveryStrategy.compensate => st
  | some RecoveryStrategy.ignore => st
  | none => st

/-- Modelled from the spec: `ErrorHandler.handle` — normalize, record the
occurrence, alert gate (critical always alerts; otherwise a count above 10
sends a `warning` rate alert), then delegate to the recovery orchestrator
when the error is recoverable (spec section 4.6). -/
def handle (st : HandlerState) (adapters : Adapters) (ctx : AmbientContext)
    (f : FailureValue) (now : Nat) : HandlerState :=
  let e := normalize st.nextId now ctx f
  let key := canonicalKey e
  let (count, reg') := recordOccurrence st.registry key
  let am₁ :=
    if e.severity = ErrorSeverity.critical then
      (sendRun st.am adapters (criticalAlert e) now).1
    else if count > 10 then
      (sendRun st.am adapters (rateAlert e count) now).1
    else
      st.am
  let st₁ : HandlerState := ⟨st.nextId + 1, reg', st.breakers, am₁⟩
  if e.recoverable then recoveryAttempt st₁ adapters e now else st₁

theorem mapGet_mapSet_self {κ ν : Type} [DecidableEq κ]
    (m : List (κ × ν)) (k : κ) (v : ν) : mapGet (mapSet m k v) k = some v := by
  induction m with
  | nil => simp [mapSet, mapGet]
  | cons hd tl ih =>
    obtain ⟨k', v'⟩ := hd
    by_cases h : k' = k
    · subst h
      simp [mapSet, mapGet]
    · simp [mapSet, mapGet, h, ih]

theorem mapGet_mapSet_ne {κ ν : Type} [DecidableEq κ]
    (m : List (κ × ν)) (k k' : κ) (v : ν) (h : k ≠ k') :
    mapGet (mapSet m k v) k' = mapGet m k' := by
  induction m with
  | nil => simp [mapSet, mapGet, h]
  | cons hd tl ih =>
    obtain ⟨k₀, v₀⟩ := hd
    by_cases h₀ : k₀ = k
    · subst h₀
      simp [mapSet, mapGet, h]
    · simp only [mapSet, if_neg h₀]
      by_cases h₁ : k₀ = k'
      · subst h₁
        simp [mapGet]
      · simp [mapGet, h₁, ih]

theorem rateLimitKey_stamp (a : Alert) (now : Nat) :
    rateLimitKey (stampTimestamp a now) = rateLimitKey a := rfl

theorem addToHistory_head (st : AMState) (a : Alert) :
    (addToHistory st a).alertHistory.head? = some a := by
  simp only [addToHistory]
  split
  · rename_i h
    cases hh : st.alertHistory with
    | nil =>
      rw [hh] at h
      simp only [List.length_cons, List.length_nil, maxHistorySize] at h
      omega
    | cons x xs => rfl
  · rfl

theorem addToHistory_frame (st : AMState) (a : Alert) :
    (addToHistory st a).rateLimiter = st.rateLimiter ∧
    (addToHistory st a).channels = st.channels := by
  simp only [addToHistory]
  split
  · exact ⟨rfl, rfl⟩
  · exact ⟨rfl, rfl⟩

theorem isRateLimited_snd_frame (st : AMState) (a : Alert) (now : Nat) :
    (isRateLimited st a now).2.alertHistory = st.alertHistory ∧
    (isRateLimited st a now).2.channels = st.channels := by
  simp only [isRateLimited]
  cases h : mapGet st.rateLimiter (rateLimitKey a) with
  | none => exact ⟨rfl, rfl⟩
  | some ts =>
    dsimp only
    split
    · exact ⟨rfl, rfl⟩
    · exact ⟨rfl, rfl⟩

theorem isRateLimited_fresh (st : AMState) (a : Alert) (now : Nat)
    (h : mapGet st.rateLimiter (rateLimitKey a) = none) :
    isRateLimited st a now =
      (false, { st with rateLimiter := mapSet st.rateLimiter (rateLimitKey a) now }) := by
  simp [isRateLimited, h]

theorem isRateLimited_within (st : AMState) (a : Alert) (now ts : Nat)
    (h : mapGet st.rateLimiter (rateLimitKey a) = some ts)
    (hw : now - ts < rateLimitWindow) :
    isRateLimited st a now = (true, st) := by
  simp [isRateLimited, h, hw]

theorem isRateLimited_expired (st : AMState) (a : Alert) (now ts : Nat)
    (h : mapGet st.rateLimiter (rateLimitKey a) = some ts)
    (hw : ¬ now - ts < rateLimitWindow) :
    isRateLimited st a now =
      (false, { st with rateLimiter := mapSet st.rateLimiter (rateLimitKey a) now }) := by
  simp [isRateLimited, h, hw]

theorem send_limited (st : AMState) (adapters : Adapters) (a : Alert)
    (now ts : Nat)
    (h : mapGet st.rateLimiter (rateLimitKey a) = some ts)
    (hw : now - ts < rateLimitWindow) :
    send st adapters a now = Except.ok (st, ⟨true, [], []⟩) := by
  have hlim : isRateLimited st (stampTimestamp a now) now = (true, st) :=
    isRateLimited_within st (stampTimestamp a now) now ts h hw
  simp only [send]
  rw [hlim]

theorem sendRun_limited (st : AMState) (adapters : Adapters) (a : Alert)
    (now ts : Nat)
    (h : mapGet st.rateLimiter (rateLimitKey a) = some ts)
    (hw : now - ts < rateLimitWindow) :
    sendRun st adapters a now = (st, ⟨true, [], []⟩) := by
  unfold sendRun
  rw [send_limited st adapters a now ts h hw]

theorem sendRun_dispatch (st st₁ : AMState) (adapters : Adapters) (a : Alert)
    (now : Nat)
    (hlim : isRateLimited st (stampTimestamp a now) now = (false, st₁)) :
    sendRun st adapters a now =
      (addToHistory st₁ (stampTimestamp a now),
       ⟨false, resolveChannels (stampTimestamp a now),
        (resolveChannels (stampTimestamp a now)).map
          (sendToChannel (addToHistory st₁ (stampTimestamp a now)) adapters)⟩) := by
  simp only [sendRun, send]
  rw [hlim]

theorem mem_of_head?_eq {α : Type} (l : List α) (x : α) (h : l.head? = some x) :
    x ∈ l := by
  cases l with
  | nil => simp at h
  | cons y ys =>
    simp at h
    simp [h]

theorem head?_take {α : Type} (l : List α) (n : Nat) (x : α) (hn : 1 ≤ n)
    (hx : l.head? = some x) : (l.take n).head? = some x := by
  cases l with
  | nil => simp at hx
  | cons y ys =>
    obtain ⟨m, rfl⟩ : ∃ m, n = m + 1 := ⟨n - 1, by omega⟩
    simp at hx
    simp [hx]

theorem head_mem_addToHistory (st : AMState) (b x : Alert)
    (hx : st.alertHistory.head? = some x) :
    x ∈ (addToHistory st b).alertHistory := by
  rcases hh : st.alertHistory with _ | ⟨y, ys⟩
  · rw [hh] at hx
    simp at hx
  · rw [hh] at hx
    simp at hx
    subst hx
    simp only [addToHistory, hh]
    split
    · rename_i hlen
      cases ys with
      | nil =>
        simp only [List.length_cons, List.length_nil, maxHistorySize] at hlen
        omega
      | cons z zs => simp
    · simp

theorem sendRun_fresh (st : AMState) (adapters : Adapters) (a : Alert) (t : Nat)
    (hfresh : mapGet st.rateLimiter (rateLimitKey a) = none) :
    (sendRun st adapters a t).2.suppressed = false ∧
    (sendRun st adapters a t).1.alertHistory.head? = some (stampTimestamp a t) ∧
    (sendRun st adapters a t).1.rateLimiter =
      mapSet st.rateLimiter (rateLimitKey a) t ∧
    (sendRun st adapters a t).1.channels = st.channels := by
  have hlim : isRateLimited st (stampTimestamp a t) t =
      (false, { st with rateLimiter := mapSet st.rateLimiter (rateLimitKey a) t }) :=
    isRateLimited_fresh st (stampTimestamp a t) t hfresh
  rw [sendRun_dispatch st _ adapters a t hlim]
  refine ⟨rfl, addToHistory_head _ _, ?_, ?_⟩
  · rw [(addToHistory_frame _ _).1]
  · rw [(addToHistory_frame _ _).2]

theorem sendRun_suppressed_eq (st st₁ : AMState) (adapters : Adapters)
    (b : Alert) (t : Nat)
    (hlim : isRateLimited st (stampTimestamp b t) t = (true, st₁)) :
    sendRun st adapters b t = (st₁, ⟨true, [], []⟩) := by
  simp only [sendRun, send]
  rw [hlim]

theorem head_mem_sendRun (st : AMState) (adapters : Adapters) (b : Alert)
    (t : Nat) (x : Alert) (hx : st.alertHistory.head? = some x) :
    x ∈ (sendRun st adapters b t).1.alertHistory := by
  rcases hlim : isRateLimited st (stampTimestamp b t) t with ⟨fl, st₁⟩
  have hhist : st₁.alertHistory = st.alertHistory := by
    have h := (isRateLimited_snd_frame st (stampTimestamp b t) t).1
    rw [hlim] at h
    exact h
  cases fl
  · rw [sendRun_dispatch st st₁ adapters b t hlim]
    exact head_mem_addToHistory st₁ (stampTimestamp b t) x (by rw [hhist]; exact hx)
  · rw [sendRun_suppressed_eq st st₁ adapters b t hlim]
    exact mem_of_head?_eq _ _ (by rw [hhist]; exact hx)

theorem send_suppressed_ok (st st₁ : AMState) (adapters : Adapters) (a : Alert)
    (now : Nat)
    (hlim : isRateLimited st (stampTimestamp a now) now = (true, st₁)) :
    send st adapters a now = Except.ok (st₁, ⟨true, [], []⟩) := by
  simp only [send]
  rw [hlim]

theorem send_dispatch_eq (st st₁ : AMState) (adapters : Adapters) (a : Alert)
    (now : Nat)
    (hlim : isRateLimited st (stampTimestamp a now) now = (false, st₁)) :
    send st adapters a now =
      Except.ok (addToHistory st₁ (stampTimestamp a now),
        ⟨false, resolveChannels (stampTimestamp a now),
         (resolveChannels (stampTimestamp a now)).map
           (sendToChannel (addToHistory st₁ (stampTimestamp a now)) adapters)⟩) := by
  simp only [send]
  rw [hlim]

/-- C8: the `ErrorNormalizer` is idempotent — normalizing an
already-canonical error returns it unchanged (no new id, no new timestamp,
no new ambient context is baked in), so `normalize` composed with itself
equals a single `normalize`. -/
theorem normalize_idempotent :
    (∀ i₁ n₁ c₁ i₂ n₂ c₂ f,
      normalize i₂ n₂ c₂ (FailureValue.canonical (normalize i₁ n₁ c₁ f)) =
        normalize i₁ n₁ c₁ f) ∧
    (∀ i n c e, normalize i n c (FailureValue.canonical e) = e) :=
  ⟨fun _ _ _ _ _ _ _ => rfl, fun _ _ _ _ => rfl⟩

theorem iterateFailures_closed (N T now : Nat) :
    ∀ k, k < N →
      iterateFailures ⟨CBState.closed, 0, none, N, T⟩ now k =
        ⟨CBState.closed, k, if k = 0 then none else some now, N, T⟩ := by
  intro k
  induction k with
  | zero => intro _; simp [iterateFailures]
  | succ k ih =>
    intro h
    have hk : k < N := Nat.lt_of_succ_lt h
    have hlt : ¬ N ≤ k + 1 := by omega
    simp [iterateFailures, ih hk, CircuitBreaker.recordFailure, hlt]

/-- C7: starting `closed` with a zero counter, a breaker is still `closed`
after any number of `recordFailure` calls below the threshold `N`, becomes
`open` exactly on the `N`-th call, and the default threshold is 5 (with the
default breaker starting `closed` at count zero). -/
theorem breaker_opens_exactly_at_threshold (N T now : Nat) (hN : 0 < N) :
    (∀ k, k < N →
      (iterateFailures ⟨CBState.closed, 0, none, N, T⟩ now k).state = CBState.closed) ∧
    (iterateFailures ⟨CBState.closed, 0, none, N, T⟩ now N).state = CBState.opened ∧
    defaultBreaker.failureThreshold = 5 ∧
    defaultBreaker.state = CBState.closed ∧
    defaultBreaker.failureCount = 0 := by
  refine ⟨?_, ?_, rfl, rfl, rfl⟩
  · intro k hk
    rw [iterateFailures_closed N T now k hk]
  · obtain ⟨M, rfl⟩ : ∃ M, N = M + 1 := ⟨N - 1, by omega⟩
    have h := iterateFailures_closed (M + 1) T now M (by omega)
    simp [iterateFailures, h, CircuitBreaker.recordFailure]

/-- Witness for C7 at the default threshold 5: four failures leave the
breaker `closed`, the fifth opens it. -/
theorem breaker_opens_exactly_at_threshold_instance :
    (iterateFailures ⟨CBState.closed, 0, none, 5, 60000⟩ 0 4).state = CBState.closed ∧
    (iterateFailures ⟨CBState.closed, 0, none, 5, 60000⟩ 0 5).state = CBState.opened :=
  ⟨(breaker_opens_exactly_at_threshold 5 60000 0 (by decide)).1 4 (by decide),
   (breaker_opens_exactly_at_threshold 5 60000 0 (by decide)).2.1⟩

/-- C9: when `send` suppresses an alert because a prior send for its
`title:severity` key lies within the 300000 ms window, the call returns with
the manager state exactly unchanged — nothing appended to history, no
channel dispatched, and the rate-limiter timestamp not refreshed (the window
is measured from the last successful send, not the last attempt). -/
theorem send_suppression_frame (st : AMState) (adapters : Adapters) (a : Alert)
    (now ts : Nat)
    (hts : mapGet st.rateLimiter (rateLimitKey a) = some ts)
    (hwin : now - ts < rateLimitWindow) :
    send st adapters a now = Except.ok (st, ⟨true, [], []⟩) :=
  send_limited st adapters a now ts hts hwin

/-- Witness for C9: a concrete suppressed send leaves the state untouched. -/
theorem send_suppression_frame_instance :
    send ⟨[], [], [("t:info", 0)]⟩ (fun _ => Except.ok ())
        ⟨AlertSeverity.info, "t", "m", [], none, [], none⟩ 1000 =
      Except.ok (⟨[], [], [("t:info", 0)]⟩, ⟨true, [], []⟩) :=
  send_suppression_frame ⟨[], [], [("t:info", 0)]⟩ (fun _ => Except.ok ())
    ⟨AlertSeverity.info, "t", "m", [], none, [], none⟩ 1000 0 rfl (by decide)

/-- Counterexample to C4 as stated: with `NODE_ENV` set to `production`
(and slack, SMTP and pagerduty all configured), the console channel is
registered but `enabled` is `false`, so a dispatch to the console channel is
skipped and no console print happens. -/
theorem console_not_always_enabled_cex :
    mapGet (initAlertManager ⟨some "https://hooks.example/svc", none, none,
        some "smtp.example.com", none, none, none, none, some "pdkey123",
        some "production"⟩).channels AlertChannel.console =
      some ⟨false, ChannelSettings.emptyCfg⟩ ∧
    sendToChannel (initAlertManager ⟨some "https://hooks.example/svc", none, none,
        some "smtp.example.com", none, none, none, none, some "pdkey123",
        some "production"⟩) (fun _ => Except.ok ()) AlertChannel.console =
      ChannelOutcome.skipped := by
  constructor <;> rfl

/-- C4 (amended): the console channel entry is always registered in the
channel map, but it is enabled exactly when `NODE_ENV` equals
`development`; when it is enabled, dispatching to the console channel
performs the console print (it always succeeds), regardless of webhook URL,
SMTP host or integration-key configuration. -/
theorem console_registered_enabled_iff_development (env : Env) :
    mapGet (initializeChannels env) AlertChannel.console =
      some ⟨env.nodeEnv == some "development", ChannelSettings.emptyCfg⟩ ∧
    (env.nodeEnv = some "development" → ∀ adapters : Adapters,
      sendToChannel (initAlertManager env) adapters AlertChannel.console =
        ChannelOutcome.delivered) := by
  have hreg : mapGet (initializeChannels env) AlertChannel.console =
      some ⟨env.nodeEnv == some "development", ChannelSettings.emptyCfg⟩ :=
    mapGet_mapSet_self _ _ _
  refine ⟨hreg, fun hdev adapters => ?_⟩
  have hcfg : mapGet (initAlertManager env).channels AlertChannel.console =
      some ⟨true, ChannelSettings.emptyCfg⟩ := by
    show mapGet (initializeChannels env) AlertChannel.console = _
    rw [hreg, hdev]
    rfl
  simp [sendToChannel, hcfg, channelAction]

/-- Witness for the amended C4: in a development environment the console
channel is registered as enabled and the console dispatch is performed. -/
theorem console_registered_enabled_iff_development_instance :
    mapGet (initializeChannels ⟨none, none, none, none, none, none, none, none,
        none, some "development"⟩) AlertChannel.console =
      some ⟨true, ChannelSettings.emptyCfg⟩ ∧
    sendToChannel (initAlertManager ⟨none, none, none, none, none, none, none,
        none, none, some "development"⟩) (fun _ => Except.ok ())
        AlertChannel.console = ChannelOutcome.delivered :=
  ⟨(console_registered_enabled_iff_development
      ⟨none, none, none, none, none, none, none, none, none, some "development"⟩).1,
   (console_registered_enabled_iff_development
      ⟨none, none, none, none, none, none, none, none, none, some "development"⟩).2
     rfl (fun _ => Except.ok ())⟩

/-- C5: the channel set actually dispatched by `send` is the alert's
explicit `channels` list when provided, and otherwise is determined solely
by severity: critical → slack, pagerduty, email; high → slack, email;
warning → slack; info → console. -/
theorem send_channels_resolution (st : AMState) (adapters : Adapters) (a : Alert)
    (now : Nat) (st' : AMState) (r : SendResult)
    (hok : send st adapters a now = Except.ok (st', r))
    (hdisp : r.suppressed = false) :
    r.channels =
      match a.channels with
      | some cs => cs
      | none =>
        match a.severity with
        | AlertSeverity.critical =>
          [AlertChannel.slack, AlertChannel.pagerduty, AlertChannel.email]
        | AlertSeverity.high => [AlertChannel.slack, AlertChannel.email]
        | AlertSeverity.warning => [AlertChannel.slack]
        | AlertSeverity.info => [AlertChannel.console] := by
  rcases hlim : isRateLimited st (stampTimestamp a now) now with ⟨fl, st₁⟩
  cases fl
  · rw [send_dispatch_eq st st₁ adapters a now hlim] at hok
    simp only [Except.ok.injEq, Prod.mk.injEq] at hok
    obtain ⟨h1, h2⟩ := hok
    rw [← h2]
    show resolveChannels (stampTimestamp a now) = _
    rcases hc : a.channels with _ | cs
    · rcases hsev : a.severity <;>
        simp [resolveChannels, stampTimestamp, getDefaultChannels, hc, hsev]
    · simp [resolveChannels, stampTimestamp, hc]
  · rw [send_suppressed_ok st st₁ adapters a now hlim] at hok
    simp only [Except.ok.injEq, Prod.mk.injEq] at hok
    obtain ⟨h1, h2⟩ := hok
    rw [← h2] at hdisp
    simp at hdisp

/-- Witness for C5: a critical alert with no explicit channel list is
dispatched to slack, pagerduty and email. -/
theorem send_channels_resolution_instance :
    (⟨false, [AlertChannel.slack, AlertChannel.pagerduty, AlertChannel.email],
       [ChannelOutcome.skipped, ChannelOutcome.skipped, ChannelOutcome.skipped]⟩ :
      SendResult).channels =
      [AlertChannel.slack, AlertChannel.pagerduty, AlertChannel.email] :=
  send_channels_resolution ⟨[], [], []⟩ (fun _ => Except.ok ())
    ⟨AlertSeverity.critical, "c", "m", [], none, [], none⟩ 0
    ⟨[], [⟨AlertSeverity.critical, "c", "m", [], none, [], some 0⟩], [("c:critical", 0)]⟩
    ⟨false, [AlertChannel.slack, AlertChannel.pagerduty, AlertChannel.email],
     [ChannelOutcome.skipped, ChannelOutcome.skipped, ChannelOutcome.skipped]⟩
    rfl rfl

/-- C10: `getHistory` returns at most `limit` alerts (`10` when the limit
is omitted), newest first — after a non-suppressed `send`, the first element
of any non-empty `getHistory` slice is the alert just recorded; `getHistory`
is a pure function of the state and so modifies nothing. -/
theorem getHistory_limit_newest_first :
    (∀ (st : AMState) (n : Nat), (getHistory st n).length ≤ n) ∧
    (∀ st : AMState, getHistoryDefault st = getHistory st 10) ∧
    (∀ (st : AMState) (adapters : Adapters) (a : Alert) (now : Nat)
      (st' : AMState) (r : SendResult) (n : Nat),
      send st adapters a now = Except.ok (st', r) →
      r.suppressed = false → 1 ≤ n →
      (getHistory st' n).head? = some (stampTimestamp a now)) := by
  refine ⟨?_, fun st => rfl, ?_⟩
  · intro st n
    show (st.alertHistory.take n).length ≤ n
    rw [List.length_take]
    exact Nat.min_le_left _ _
  · intro st adapters a now st' r n hok hdisp hn
    rcases hlim : isRateLimited st (stampTimestamp a now) now with ⟨fl, st₁⟩
    cases fl
    · rw [send_dispatch_eq st st₁ adapters a now hlim] at hok
      simp only [Except.ok.injEq, Prod.mk.injEq] at hok
      obtain ⟨h1, h2⟩ := hok
      rw [← h1]
      exact head?_take _ n _ hn (addToHistory_head _ _)
    · rw [send_suppressed_ok st st₁ adapters a now hlim] at hok
      simp only [Except.ok.injEq, Prod.mk.injEq] at hok
      obtain ⟨h1, h2⟩ := hok
      rw [← h2] at hdisp
      simp at hdisp

/-- Witness for C10: after a concrete non-suppressed send, the default
10-entry history slice starts with the recorded alert. -/
theorem getHistory_limit_newest_first_instance :
    (getHistory ⟨[], [⟨AlertSeverity.info, "w", "m", [], none, [], some 3⟩],
        [("w:info", 3)]⟩ 10).head? =
      some (stampTimestamp ⟨AlertSeverity.info, "w", "m", [], none, [], none⟩ 3) :=
  getHistory_limit_newest_first.2.2 ⟨[], [], []⟩ (fun _ => Except.ok ())
    ⟨AlertSeverity.info, "w", "m", [], none, [], none⟩ 3
    ⟨[], [⟨AlertSeverity.info, "w", "m", [], none, [], some 3⟩], [("w:info", 3)]⟩
    ⟨false, [AlertChannel.console], [ChannelOutcome.skipped]⟩ 10 rfl rfl
    (by decide)

/-- C2: `send` never throws — it always returns `ok` — and dispatch is a
settle-all fan-out with isolated failure domains: a failing adapter on an
enabled channel is caught (the outcome is `caught`, nothing propagates), a
channel's outcome depends only on its own adapter, and every resolved
channel receives its own outcome. -/
theorem send_best_effort_settle_all :
    (∀ (st : AMState) (adapters : Adapters) (a : Alert) (now : Nat),
      ∃ st' r, send st adapters a now = Except.ok (st', r)) ∧
    (∀ (st : AMState) (adapters : Adapters) (c : AlertChannel)
      (cfg : ChannelConfig) (e : String),
      mapGet st.channels c = some cfg → cfg.enabled = true →
      channelAction adapters c = Except.error e →
      sendToChannel st adapters c = ChannelOutcome.caught e) ∧
    (∀ (st : AMState) (adapters₁ adapters₂ : Adapters) (c : AlertChannel),
      adapters₁ c = adapters₂ c →
      sendToChannel st adapters₁ c = sendToChannel st adapters₂ c) ∧
    (∀ (st : AMState) (adapters : Adapters) (a : Alert) (now : Nat)
      (st' : AMState) (r : SendResult),
      send st adapters a now = Except.ok (st', r) →
      r.outcomes = r.channels.map (sendToChannel st' adapters)) := by
  refine ⟨?_, ?_, ?_, ?_⟩
  · intro st adapters a now
    rcases hlim : isRateLimited st (stampTimestamp a now) now with ⟨fl, st₁⟩
    cases fl
    · exact ⟨_, _, send_dispatch_eq st st₁ adapters a now hlim⟩
    · exact ⟨_, _, send_suppressed_ok st st₁ adapters a now hlim⟩
  · intro st adapters c cfg e hget hen hact
    simp [sendToChannel, hget, hen, hact]
  · intro st adapters₁ adapters₂ c h
    have hca : channelAction adapters₁ c = channelAction adapters₂ c := by
      cases c <;> simp [channelAction, h]
    simp only [sendToChannel, hca]
  · intro st adapters a now st' r hok
    rcases hlim : isRateLimited st (stampTimestamp a now) now with ⟨fl, st₁⟩
    cases fl
    · rw [send_dispatch_eq st st₁ adapters a now hlim] at hok
      simp only [Except.ok.injEq, Prod.mk.injEq] at hok
      obtain ⟨h1, h2⟩ := hok
      rw [← h1, ← h2]
    · rw [send_suppressed_ok st st₁ adapters a now hlim] at hok
      simp only [Except.ok.injEq, Prod.mk.injEq] at hok
      obtain ⟨h1, h2⟩ := hok
      rw [← h2]
      rfl

/-- Witness for C2: a failing slack adapter on an enabled slack channel is
caught and reported as an outcome, not thrown. -/
theorem send_best_effort_settle_all_instance :
    sendToChannel ⟨[(AlertChannel.slack, ⟨true, ChannelSettings.emptyCfg⟩)], [], []⟩
      (fun _ => Except.error "down") AlertChannel.slack =
      ChannelOutcome.caught "down" :=
  send_best_effort_settle_all.2.1
    ⟨[(AlertChannel.slack, ⟨true, ChannelSettings.emptyCfg⟩)], [], []⟩
    (fun _ => Except.error "down") AlertChannel.slack
    ⟨true, ChannelSettings.emptyCfg⟩ "down" rfl rfl rfl

theorem addToHistory_length (st : AMState) (a : Alert)
    (h : st.alertHistory.length ≤ maxHistorySize) :
    (addToHistory st a).alertHistory.length ≤ maxHistorySize := by
  simp only [addToHistory]
  split
  · rename_i hlen
    rw [List.length_dropLast]
    simp only [List.length_cons] at hlen ⊢
    omega
  · rename_i hlen
    simp only [List.length_cons, gt_iff_lt, not_lt] at hlen ⊢
    omega

theorem sendRun_history_bound (st : AMState) (adapters : Adapters) (a : Alert)
    (t : Nat) (h : st.alertHistory.length ≤ maxHistorySize) :
    (sendRun st adapters a t).1.alertHistory.length ≤ maxHistorySize := by
  rcases hlim : isRateLimited st (stampTimestamp a t) t with ⟨fl, st₁⟩
  have hhist : st₁.alertHistory = st.alertHistory := by
    have hfr := (isRateLimited_snd_frame st (stampTimestamp a t) t).1
    rw [hlim] at hfr
    exact hfr
  cases fl
  · rw [sendRun_dispatch st st₁ adapters a t hlim]
    exact addToHistory_length st₁ _ (by rw [hhist]; exact h)
  · rw [sendRun_suppressed_eq st st₁ adapters a t hlim]
    show st₁.alertHistory.length ≤ maxHistorySize
    rw [hhist]
    exact h

theorem runSends_history_bound (adapters : Adapters) :
    ∀ (ops : List (Alert × Nat)) (st : AMState),
      st.alertHistory.length ≤ maxHistorySize →
      (runSends adapters st ops).alertHistory.length ≤ maxHistorySize := by
  intro ops
  induction ops with
  | nil => intro st h; exact h
  | cons p rest ih =>
    intro st h
    obtain ⟨a, t⟩ := p
    exact ih _ (sendRun_history_bound st adapters a t h)

/-- C3: after every sequence of `send` calls starting from a fresh manager,
the alert history holds at most 100 alerts; and when an alert is recorded
while the history is exactly at capacity, the history becomes the new alert
followed by the old history minus its last (oldest) entry. -/
theorem alert_history_bounded_oldest_evicted :
    (∀ (env : Env) (adapters : Adapters) (ops : List (Alert × Nat)),
      (runSends adapters (initAlertManager env) ops).alertHistory.length ≤
        maxHistorySize) ∧
    (∀ (st : AMState) (a : Alert), st.alertHistory.length = maxHistorySize →
      (addToHistory st a).alertHistory = a :: st.alertHistory.dropLast) := by
  constructor
  · intro env adapters ops
    refine runSends_history_bound adapters ops _ ?_
    show (List.length ([] : List Alert)) ≤ maxHistorySize
    simp
  · intro st a hlen
    simp only [addToHistory]
    split
    · rename_i h
      cases hh : st.alertHistory with
      | nil =>
        rw [hh] at hlen
        simp only [List.length_nil, maxHistorySize] at hlen
        exact absurd hlen (by decide)
      | cons y ys => rfl
    · rename_i h
      simp only [List.length_cons, gt_iff_lt, not_lt] at h
      omega

/-- Witness for C3: recording a new alert while a concrete history holds
exactly 100 entries keeps the newest at the head and drops the oldest. -/
theorem alert_history_bounded_oldest_evicted_instance :
    (addToHistory
        ⟨[], List.replicate 100 ⟨AlertSeverity.info, "old", "m", [], none, [], some 0⟩, []⟩
        ⟨AlertSeverity.info, "new", "m", [], none, [], some 1⟩).alertHistory =
      ⟨AlertSeverity.info, "new", "m", [], none, [], some 1⟩ ::
        (List.replicate 100
          (⟨AlertSeverity.info, "old", "m", [], none, [], some 0⟩ : Alert)).dropLast :=
  alert_history_bounded_oldest_evicted.2
    ⟨[], List.replicate 100 ⟨AlertSeverity.info, "old", "m", [], none, [], some 0⟩, []⟩
    ⟨AlertSeverity.info, "new", "m", [], none, [], some 1⟩
    (by simp [maxHistorySize])

/-- C1: for a `title:severity` key with no prior send recorded, the first
`send` is never suppressed and lands at the head of the history; a second
send for the same key within the 300000 ms window is suppressed with the
manager state unchanged, so exactly one of the two reached the adapters and
the history; and a third send for the key once the window has elapsed since
the first successful send is dispatched again. -/
theorem send_rate_limit_dedup (st : AMState) (adapters : Adapters)
    (a₁ a₂ a₃ : Alert) (t₀ t₁ t₂ : Nat)
    (hk₂ : rateLimitKey a₂ = rateLimitKey a₁)
    (hk₃ : rateLimitKey a₃ = rateLimitKey a₁)
    (hfresh : mapGet st.rateLimiter (rateLimitKey a₁) = none)
    (hwin : t₁ - t₀ < rateLimitWindow)
    (helapsed : rateLimitWindow ≤ t₂ - t₀) :
    (sendRun st adapters a₁ t₀).2.suppressed = false ∧
    (sendRun st adapters a₁ t₀).1.alertHistory.head? =
      some (stampTimestamp a₁ t₀) ∧
    (sendRun (sendRun st adapters a₁ t₀).1 adapters a₂ t₁).2.suppressed = true ∧
    (sendRun (sendRun st adapters a₁ t₀).1 adapters a₂ t₁).1 =
      (sendRun st adapters a₁ t₀).1 ∧
    (sendRun (sendRun (sendRun st adapters a₁ t₀).1 adapters a₂ t₁).1
        adapters a₃ t₂).2.suppressed = false := by
  obtain ⟨h1, h2, h3, h4⟩ := sendRun_fresh st adapters a₁ t₀ hfresh
  have hget : mapGet (sendRun st adapters a₁ t₀).1.rateLimiter (rateLimitKey a₁) =
      some t₀ := by
    rw [h3]
    exact mapGet_mapSet_self _ _ _
  have hget₂ : mapGet (sendRun st adapters a₁ t₀).1.rateLimiter (rateLimitKey a₂) =
      some t₀ := by
    rw [hk₂]
    exact hget
  have h5 := sendRun_limited (sendRun st adapters a₁ t₀).1 adapters a₂ t₁ t₀ hget₂ hwin
  refine ⟨h1, h2, ?_, ?_, ?_⟩
  · rw [h5]
  · rw [h5]
  · rw [h5]
    show (sendRun (sendRun st adapters a₁ t₀).1 adapters a₃ t₂).2.suppressed = false
    have hget₃ : mapGet (sendRun st adapters a₁ t₀).1.rateLimiter (rateLimitKey a₃) =
        some t₀ := by
      rw [hk₃]
      exact hget
    have hnw : ¬ t₂ - t₀ < rateLimitWindow := by omega
    have hlim := isRateLimited_expired (sendRun st adapters a₁ t₀).1
      (stampTimestamp a₃ t₂) t₂ t₀ hget₃ hnw
    rw [sendRun_dispatch (sendRun st adapters a₁ t₀).1 _ adapters a₃ t₂ hlim]

/-- Witness for C1: a concrete second send 1 ms after the first is
suppressed, and a third at the window boundary is dispatched again. -/
theorem send_rate_limit_dedup_instance :
    (sendRun (sendRun ⟨[], [], []⟩ (fun _ => Except.ok ())
        ⟨AlertSeverity.critical, "x", "m", [], none, [], none⟩ 0).1
      (fun _ => Except.ok ())
        ⟨AlertSeverity.critical, "x", "m", [], none, [], none⟩ 1).2.suppressed = true ∧
    (sendRun (sendRun (sendRun ⟨[], [], []⟩ (fun _ => Except.ok ())
        ⟨AlertSeverity.critical, "x", "m", [], none, [], none⟩ 0).1
      (fun _ => Except.ok ())
        ⟨AlertSeverity.critical, "x", "m", [], none, [], none⟩ 1).1
      (fun _ => Except.ok ())
        ⟨AlertSeverity.critical, "x", "m", [], none, [], none⟩ 300000).2.suppressed =
      false :=
  ⟨(send_rate_limit_dedup ⟨[], [], []⟩ (fun _ => Except.ok ())
      ⟨AlertSeverity.critical, "x", "m", [], none, [], none⟩
      ⟨AlertSeverity.critical, "x", "m", [], none, [], none⟩
      ⟨AlertSeverity.critical, "x", "m", [], none, [], none⟩ 0 1 300000
      rfl rfl rfl (by decide) (by decide)).2.2.1,
   (send_rate_limit_dedup ⟨[], [], []⟩ (fun _ => Except.ok ())
      ⟨AlertSeverity.critical, "x", "m", [], none, [], none⟩
      ⟨AlertSeverity.critical, "x", "m", [], none, [], none⟩
      ⟨AlertSeverity.critical, "x", "m", [], none, [], none⟩ 0 1 300000
      rfl rfl rfl (by decide) (by decide)).2.2.2.2⟩

/-- Counterexample to C6 as stated: when the dispatcher's rate limiter
already holds a send for the critical alert's `title:severity` key within
the window, `handle` of a critical error records nothing in the history —
the guarantee cannot be unconditional over all dispatcher states. -/
theorem handle_critical_rate_limited_cex :
    (handle ⟨0, [], [], ⟨[], [], [("BOOM:critical", 0)]⟩⟩ (fun _ => Except.ok ())
      ⟨none, none, none, none⟩
      (FailureValue.canonical ⟨0, 0, ErrorSeverity.critical, ErrorCategory.system,
        "BOOM", "m", [], false, none, none, none, none, none, none, none⟩)
      1).am.alertHistory = [] := by
  rfl

/-- C6 (amended): for any error of critical severity, `handle` records at least one
alert in the alert history, with the `FailureRegistry` state (and hence the
prior count for the error's `category:code` key) universally quantified,
provided the alert's `title:severity` key has no prior send recorded in the
dispatcher's rate limiter. -/
theorem handle_critical_always_alerts (st : HandlerState) (adapters : Adapters)
    (ctx : AmbientContext) (e : CanonicalError) (now : Nat)
    (hsev : e.severity = ErrorSeverity.critical)
    (hfresh : mapGet st.am.rateLimiter (rateLimitKey (criticalAlert e)) = none) :
    stampTimestamp (criticalAlert e) now ∈
      (handle st adapters ctx (FailureValue.canonical e) now).am.alertHistory := by
  obtain ⟨h1, h2, h3, h4⟩ := sendRun_fresh st.am adapters (criticalAlert e) now hfresh
  simp only [handle, normalize, recordOccurrence, hsev, eq_self_iff_true, if_true]
  split
  · simp only [recoveryAttempt]
    rcases hrec : e.recovery with _ | s
    · exact mem_of_head?_eq _ _ h2
    · cases s
      · exact mem_of_head?_eq _ _ h2
      · exact mem_of_head?_eq _ _ h2
      · exact mem_of_head?_eq _ _ h2
      · exact mem_of_head?_eq _ _ h2
      · exact head_mem_sendRun _ adapters _ now _ h2
      · exact mem_of_head?_eq _ _ h2
  · exact mem_of_head?_eq _ _ h2

/-- Witness for C6: a concrete critical error handled against an empty
handler state records its alert in the history. -/
theorem handle_critical_always_alerts_instance :
    stampTimestamp (criticalAlert ⟨0, 0, ErrorSeverity.critical,
        ErrorCategory.system, "BOOM", "m", [], false, none, none, none, none,
        none, none, none⟩) 7 ∈
      (handle ⟨0, [], [], ⟨[], [], []⟩⟩ (fun _ => Except.ok ())
        ⟨none, none, none, none⟩
        (FailureValue.canonical ⟨0, 0, ErrorSeverity.critical,
          ErrorCategory.system, "BOOM", "m", [], false, none, none, none, none,
          none, none, none⟩) 7).am.alertHistory :=
  handle_critical_always_alerts ⟨0, [], [], ⟨[], [], []⟩⟩ (fun _ => Except.ok ())
    ⟨none, none, none, none⟩
    ⟨0, 0, ErrorSeverity.critical, ErrorCategory.system, "BOOM", "m", [], false,
      none, none, none, none, none, none, none⟩ 7 rfl rfl

end AgenticWorkflow
